import Mathlib

/-!
Verification of the putio terraform provider (SkYNewZ/terraform-provider-putio).

Shallow embedding of the two Go source packages:
* `internal/modifiers` — the default-value plan modifiers;
* `internal/provider` — the provider object (`Configure`, `convertProviderType`)
  and the `putio_rss_feed` resource (Create / Read / Update / Delete).

Framework value types (`types.String`, `types.Int64`, `types.Bool` of
terraform-plugin-framework) are embedded as records with the `Unknown`, `Null`,
`Value` fields they carry in the framework version this repository pins.
Machine integers (`int64`, Go `int`) are embedded as `Int`; the code performs
no arithmetic on them, only formatting, so overflow cannot occur anywhere.
-/

/-- Embeds terraform-plugin-framework `types.String`: fields `Unknown`, `Null`, `Value`. -/
structure TFString where
  Unknown : Bool
  Null : Bool
  Value : String
deriving DecidableEq, Repr

/-- Embeds terraform-plugin-framework `types.Int64`: fields `Unknown`, `Null`, `Value`.
`Value` is a Go `int64`, embedded as `Int` (no arithmetic is done on it). -/
structure TFInt64 where
  Unknown : Bool
  Null : Bool
  Value : Int
deriving DecidableEq, Repr

/-- Embeds terraform-plugin-framework `types.Bool`: fields `Unknown`, `Null`, `Value`. -/
structure TFBool where
  Unknown : Bool
  Null : Bool
  Value : Bool
deriving DecidableEq, Repr

/-! ### strconv: decimal formatting (`strconv.FormatInt(_, 10)`, `strconv.Itoa`) -/

/-- Little-endian base-10 digits of `n`, with `fuel` bounding the recursion depth
(`fuel = n` always suffices since `n / 10 < n` for `n ≠ 0`). -/
def decDigitsRev (fuel : Nat) (n : Nat) : List Nat :=
  match fuel with
  | 0 => []
  | fuel + 1 => if n = 0 then [] else n % 10 :: decDigitsRev fuel (n / 10)

/-- Value of a little-endian base-10 digit list. -/
def ofDecRev : List Nat → Nat
  | [] => 0
  | d :: ds => d + 10 * ofDecRev ds

/-- The character for a single decimal digit `d < 10` (ASCII `'0' + d`). -/
def digitChar (d : Nat) : Char := Char.ofNat (48 + d)

/-- The decimal digit denoted by a character (inverse of `digitChar` on digits). -/
def digitVal (c : Char) : Nat := c.toNat - 48

/-- Decimal string of a natural number, most-significant digit first; `0` prints `"0"`.
This is the output contract of Go `strconv.FormatUint(_, 10)`. -/
def formatNat (n : Nat) : String :=
  if n = 0 then "0" else ⟨((decDigitsRev n n).reverse).map digitChar⟩

/-- Embeds Go `strconv.FormatInt(i, 10)`: decimal string, `'-'`-prefixed when negative. -/
def FormatInt (i : Int) : String :=
  if i < 0 then "-" ++ formatNat i.natAbs else formatNat i.toNat

/-- Embeds Go `strconv.Itoa` (decimal form of a Go `int`). -/
def Itoa (i : Int) : String := FormatInt i

/-- Embeds Go `fmt.Sprintf("%t", b)`: lowercase `"true"` / `"false"`. -/
def fmtBool (b : Bool) : String := if b then "true" else "false"

/-- Parse a decimal string back to an integer (inverse of `FormatInt` on its range);
used only to state that the decimal encoding is lossless. -/
def parseDecInt (s : String) : Int :=
  match s.data with
  | '-' :: rest => - (ofDecRev ((rest.map digitVal).reverse) : Nat)
  | l => (ofDecRev ((l.map digitVal).reverse) : Nat)

/-! ### Round-trip lemmas for the decimal encoding -/

theorem ofDecRev_decDigitsRev (fuel : Nat) :
    ∀ n : Nat, n ≤ fuel → ofDecRev (decDigitsRev fuel n) = n := by
  induction fuel with
  | zero =>
    intro n hn
    simp only [Nat.le_zero] at hn
    subst hn
    rfl
  | succ fuel ih =>
    intro n hn
    by_cases h0 : n = 0
    · subst h0; rfl
    · have hdiv : n / 10 ≤ fuel := by
        have : n / 10 < n := Nat.div_lt_self (Nat.pos_of_ne_zero h0) (by omega)
        omega
      simp only [decDigitsRev, h0, if_false, ofDecRev, ih (n / 10) hdiv]
      omega

theorem decDigitsRev_lt (fuel : Nat) :
    ∀ n d : Nat, d ∈ decDigitsRev fuel n → d < 10 := by
  induction fuel with
  | zero => intro n d hd; simp [decDigitsRev] at hd
  | succ fuel ih =>
    intro n d hd
    by_cases h0 : n = 0
    · subst h0; simp [decDigitsRev] at hd
    · simp only [decDigitsRev, h0, if_false, List.mem_cons] at hd
      rcases hd with h | h
      · subst h; exact Nat.mod_lt _ (by omega)
      · exact ih _ _ h

theorem digitVal_digitChar {d : Nat} (h : d < 10) : digitVal (digitChar d) = d := by
  interval_cases d <;> rfl

theorem digitChar_ne_minus {d : Nat} (h : d < 10) : digitChar d ≠ '-' := by
  interval_cases d <;> decide

/-- Auxiliary: mapping a digit list to characters and back is the identity. -/
theorem map_digitVal_map_digitChar (l : List Nat) (hl : ∀ d ∈ l, d < 10) :
    (l.map digitChar).map digitVal = l := by
  rw [List.map_map]
  exact List.map_congr_left (fun d hd => digitVal_digitChar (hl d hd)) |>.trans (List.map_id l)

/-- The digit-list content of `formatNat n` evaluates back to `n`. -/
theorem parse_formatNat (n : Nat) :
    ofDecRev (((formatNat n).data.map digitVal).reverse) = n := by
  by_cases h0 : n = 0
  · subst h0; rfl
  · have hlt : ∀ d ∈ decDigitsRev n n, d < 10 := decDigitsRev_lt n n
    have hlt' : ∀ d ∈ (decDigitsRev n n).reverse, d < 10 := by
      intro d hd; exact hlt d (List.mem_reverse.mp hd)
    simp only [formatNat, h0, if_false]
    rw [map_digitVal_map_digitChar _ hlt', List.reverse_reverse]
    exact ofDecRev_decDigitsRev n n (Nat.le_refl n)

/-- `formatNat` never begins with a minus sign. -/
theorem formatNat_head_ne_minus (n : Nat) :
    ∀ c ∈ (formatNat n).data.head?, c ≠ '-' := by
  by_cases h0 : n = 0
  · subst h0; intro c hc; simp [formatNat] at hc; subst hc; decide
  · intro c hc
    simp only [formatNat, h0, if_false] at hc
    rcases hrev : ((decDigitsRev n n).reverse) with _ | ⟨d, ds⟩
    · rw [hrev] at hc; simp at hc
    · rw [hrev] at hc
      simp only [List.map_cons, List.head?_cons, Option.mem_def, Option.some.injEq] at hc
      subst hc
      have hd : d ∈ decDigitsRev n n := List.mem_reverse.mp (hrev ▸ List.mem_cons_self d ds)
      exact digitChar_ne_minus (decDigitsRev_lt n n d hd)

/-- The decimal encoding used for identifiers and `parent_dir_id` is lossless:
parsing the formatted string recovers the integer exactly. -/
theorem parseDecInt_FormatInt (i : Int) : parseDecInt (FormatInt i) = i := by
  by_cases hneg : i < 0
  · have habs : i.natAbs ≠ 0 := by
      intro h; rw [Int.natAbs_eq_zero] at h; omega
    simp only [FormatInt, if_pos hneg, parseDecInt]
    rw [show ("-" ++ formatNat i.natAbs).data = '-' :: (formatNat i.natAbs).data from rfl]
    simp only []
    rw [parse_formatNat i.natAbs]
    omega
  · simp only [FormatInt, if_neg hneg, parseDecInt]
    have hhead := formatNat_head_ne_minus i.toNat
    rcases hdata : (formatNat i.toNat).data with _ | ⟨c, cs⟩
    · have : ofDecRev (((formatNat i.toNat).data.map digitVal).reverse) = i.toNat :=
        parse_formatNat i.toNat
      rw [hdata] at this
      simp only [List.map_nil, List.reverse_nil] at this
      simp only [hdata, List.map_nil, List.reverse_nil]
      omega
    · have hc : c ≠ '-' := by
        apply hhead; rw [hdata]; rfl
      have hparse := parse_formatNat i.toNat
      rw [hdata] at hparse
      rcases hcc : c with ⟨cv, hv⟩
      subst hcc
      by_cases hm : (⟨cv, hv⟩ : Char) = '-'
      · exact absurd hm hc
      · have : (match (⟨cv, hv⟩ : Char) :: cs with
            | '-' :: rest => - (ofDecRev ((rest.map digitVal).reverse) : Nat)
            | l => (ofDecRev ((l.map digitVal).reverse) : Nat)) =
            ((ofDecRev ((((⟨cv, hv⟩ : Char) :: cs).map digitVal).reverse) : Nat) : Int) := by
          split
          · rename_i heq
            rw [List.cons.injEq] at heq
            exact absurd heq.1 hc
          · rfl
        rw [this, hparse]
        omega

/-- `FormatInt` is injective (losslessness stated as injectivity). -/
theorem FormatInt_injective {a b : Int} (h : FormatInt a = FormatInt b) : a = b := by
  have ha := parseDecInt_FormatInt a
  have hb := parseDecInt_FormatInt b
  rw [h] at ha
  rw [hb] at ha
  exact ha.symm

/-- `fmtBool` is injective: `"true"` and `"false"` are distinct strings. -/
theorem fmtBool_injective {a b : Bool} (h : fmtBool a = fmtBool b) : a = b := by
  cases a <;> cases b <;> first | rfl | (exact absurd h (by decide))

/-! ### internal/modifiers: default-value plan modifiers

`int64DefaultModifier` is embedded from `internal/modifiers/int64.go`. Its
`Modify` method decodes the planned attribute value with `tfsdk.ValueAs`; the
attribute is declared with `types.Int64Type`, so that decode always succeeds
and the embedding takes the decoded `TFInt64` directly. -/

/-- Embeds `int64DefaultModifier` (field `Default`). -/
structure int64DefaultModifier where
  Default : Int
deriving DecidableEq, Repr

/-- Embeds `int64DefaultModifier.Modify`: if the planned value is not null, return
leaving the plan untouched; otherwise set the plan to `types.Int64{Value: m.Default}`
(a known, non-null value). -/
def int64DefaultModifier.Modify (m : int64DefaultModifier) (plan : TFInt64) : TFInt64 :=
  if !plan.Null then plan
  else { Unknown := false, Null := false, Value := m.Default }

/-- Embeds `modifiers.In64Default`. -/
def In64Default (defaultValue : Int) : int64DefaultModifier :=
  { Default := defaultValue }

/-- Modelled from the spec: the repository's bool default modifier
(`modifiers.BoolDefault`, referenced by the rss_feed schema; its source file is
not under `src/`). Spec contract: "examine the attribute's planned value; if that
value is explicitly null …, overwrite the planned value with the configured
default; otherwise leave the plan untouched." -/
structure boolDefaultModifier where
  Default : Bool
deriving DecidableEq, Repr

/-- Modelled from the spec: `Modify` of the bool default modifier, same contract
as `int64DefaultModifier.Modify`. -/
def boolDefaultModifier.Modify (m : boolDefaultModifier) (plan : TFBool) : TFBool :=
  if !plan.Null then plan
  else { Unknown := false, Null := false, Value := m.Default }

/-- Modelled from the spec: `modifiers.BoolDefault`. -/
def BoolDefault (defaultValue : Bool) : boolDefaultModifier :=
  { Default := defaultValue }

/-- Modelled from the spec: the repository's string default modifier
(`modifiers.StringDefault`, referenced by the rss_feed schema; its source file is
not under `src/`), same contract as the other default modifiers. -/
structure stringDefaultModifier where
  Default : String
deriving DecidableEq, Repr

/-- Modelled from the spec: `Modify` of the string default modifier. -/
def stringDefaultModifier.Modify (m : stringDefaultModifier) (plan : TFString) : TFString :=
  if !plan.Null then plan
  else { Unknown := false, Null := false, Value := m.Default }

/-- Modelled from the spec: `modifiers.StringDefault`. -/
def StringDefault (defaultValue : String) : stringDefaultModifier :=
  { Default := defaultValue }

/-! ### internal/provider: rss_feed resource data model -/

/-- Embeds `rssFeedResourceData` (the external record as framework attributes). -/
structure rssFeedResourceData where
  ID : TFString
  Title : TFString
  RssSourceURL : TFString
  ParentDirID : TFInt64
  DeleteOldFiles : TFBool
  Keyword : TFString
  UnwantedKeywords : TFString
  Paused : TFBool
deriving DecidableEq, Repr

/-- Embeds the nested `Feed` struct of `putioFeedData` (the wire record).
`ID` and `ParentDirID` are Go `int`, embedded as `Int`. -/
structure putioFeed where
  ID : Int
  Title : String
  RssSourceURL : String
  ParentDirID : Int
  DeleteOldFiles : Bool
  Keyword : String
  UnwantedKeywords : String
  Paused : Bool
deriving DecidableEq, Repr

/-- Embeds `putioFeedData`: the wire response, a nested feed plus a status string
unused by the mapping logic. -/
structure putioFeedData where
  Feed : putioFeed
  Status : String
deriving DecidableEq, Repr

/-- Modelled from the spec: the practitioner's declared configuration for one
`putio_rss_feed` block — required attributes always present, optional attributes
present or omitted (`Option`), `id` computed and never configurable. -/
structure rssFeedConfig where
  title : String
  rss_source_url : String
  parent_dir_id : Option Int
  delete_old_files : Option Bool
  keyword : String
  unwanted_keywords : Option String
  paused : Option Bool
deriving DecidableEq, Repr

/-- Modelled from the spec (framework behavior, outside this repository): decoding
a configuration into `rssFeedResourceData` with `req.Config.Get`. An attribute the
practitioner omitted decodes as a null framework value whose `Value` field is the
Go zero value of its type; a supplied attribute decodes as a known, non-null value. -/
def decodeConfig (c : rssFeedConfig) : rssFeedResourceData :=
  { ID := { Unknown := false, Null := true, Value := "" }
    Title := { Unknown := false, Null := false, Value := c.title }
    RssSourceURL := { Unknown := false, Null := false, Value := c.rss_source_url }
    ParentDirID :=
      match c.parent_dir_id with
      | none => { Unknown := false, Null := true, Value := 0 }
      | some v => { Unknown := false, Null := false, Value := v }
    DeleteOldFiles :=
      match c.delete_old_files with
      | none => { Unknown := false, Null := true, Value := false }
      | some v => { Unknown := false, Null := false, Value := v }
    Keyword := { Unknown := false, Null := false, Value := c.keyword }
    UnwantedKeywords :=
      match c.unwanted_keywords with
      | none => { Unknown := false, Null := true, Value := "" }
      | some v => { Unknown := false, Null := false, Value := v }
    Paused :=
      match c.paused with
      | none => { Unknown := false, Null := true, Value := false }
      | some v => { Unknown := false, Null := false, Value := v } }

/-- Decode invariant guaranteed by the framework's reflection: a null optional
attribute carries its type's zero value in `Value`. -/
def rssFeedResourceData.wellFormed (d : rssFeedResourceData) : Prop :=
  (d.ParentDirID.Null = true → d.ParentDirID.Value = 0) ∧
  (d.DeleteOldFiles.Null = true → d.DeleteOldFiles.Value = false) ∧
  (d.UnwantedKeywords.Null = true → d.UnwantedKeywords.Value = "") ∧
  (d.Paused.Null = true → d.Paused.Value = false)

instance (d : rssFeedResourceData) : Decidable d.wellFormed := by
  unfold rssFeedResourceData.wellFormed
  infer_instance

/-- The plan after the schema's default plan modifiers ran on each optional
attribute (`In64Default(0)`, `BoolDefault(false)`, `StringDefault("")`,
`BoolDefault(false)`, per the rss_feed schema). `UseStateForUnknown`, which
precedes two of them in the schema, only replaces unknown values with prior
state and leaves null planned values untouched, so it is the identity in the
omitted-attribute scenario modelled here. -/
def applyDefaults (d : rssFeedResourceData) : rssFeedResourceData :=
  { d with
    ParentDirID := (In64Default 0).Modify d.ParentDirID
    DeleteOldFiles := (BoolDefault false).Modify d.DeleteOldFiles
    UnwantedKeywords := (StringDefault "").Modify d.UnwantedKeywords
    Paused := (BoolDefault false).Modify d.Paused }

/-! ### internal/provider: payload construction and CRUD operations -/

/-- A user-facing diagnostic (`resp.Diagnostics.AddError(summary, detail)`). -/
structure Diagnostic where
  summary : String
  detail : String
deriving DecidableEq, Repr

/-- An outbound HTTP request as the resource builds it: method, path, and the
form body (`url.Values` as key/value pairs in the order they are set), or no
body (`http.NoBody`). -/
structure HttpRequest where
  method : String
  path : String
  formBody : Option (List (String × String))
deriving DecidableEq, Repr

/-- Outcome of the single remote call an operation makes, as seen through the
putio client: `client.NewRequest` fails, `client.Do` fails (transport error or
non-2xx status), or `client.Do` succeeds and decodes the JSON response. -/
inductive CallOutcome where
  | newRequestError (msg : String)
  | doError (msg : String)
  | success (response : putioFeedData)
deriving DecidableEq, Repr

/-- Observable result of one lifecycle operation: the requests it issued, the
diagnostics it appended, and the state it wrote (`none` = no state write). -/
structure OpResult where
  requests : List HttpRequest
  diagnostics : List Diagnostic
  stateWrite : Option rssFeedResourceData
deriving DecidableEq, Repr

/-- Embeds the payload built by `rssFeedResource.Create` (lines 153–161):
`url.Values` with the eight `Set` calls, in source order. All keys are distinct,
so the insertion-ordered association list is the exact content of the payload. -/
def createPayload (data : rssFeedResourceData) : List (String × String) :=
  [("title", data.Title.Value),
   ("rss_source_url", data.RssSourceURL.Value),
   ("parent_dir_id", FormatInt data.ParentDirID.Value),
   ("delete_old_files", fmtBool data.DeleteOldFiles.Value),
   ("dont_process_whole_feed", "false"),
   ("keyword", data.Keyword.Value),
   ("unwanted_keywords", data.UnwantedKeywords.Value),
   ("paused", fmtBool data.Paused.Value)]

/-- Looks a key up in a form payload (first binding wins, as in `url.Values.Get`). -/
def lookupForm (p : List (String × String)) (k : String) : Option String :=
  (p.find? (fun kv => kv.fst = k)).map Prod.snd

/-- Embeds Create's post-processing (lines 179–186): overwrite every field of the
external record from the response's nested feed data. -/
def createPostProcess (data : rssFeedResourceData) (createdFeed : putioFeedData) :
    rssFeedResourceData :=
  { data with
    ID := { Unknown := false, Null := false, Value := Itoa createdFeed.Feed.ID }
    Title := { Unknown := false, Null := false, Value := createdFeed.Feed.Title }
    RssSourceURL := { Unknown := false, Null := false, Value := createdFeed.Feed.RssSourceURL }
    ParentDirID := { Unknown := false, Null := false, Value := createdFeed.Feed.ParentDirID }
    DeleteOldFiles := { Unknown := false, Null := false, Value := createdFeed.Feed.DeleteOldFiles }
    Keyword := { Unknown := false, Null := false, Value := createdFeed.Feed.Keyword }
    UnwantedKeywords := { Unknown := false, Null := false, Value := createdFeed.Feed.UnwantedKeywords }
    Paused := { Unknown := false, Null := false, Value := createdFeed.Feed.Paused } }

/-- Embeds Read's post-processing (lines 221–228), translated separately from its
own source lines so that its agreement with Create's post-processing is a
provable fact rather than a definition shared by construction. -/
def readPostProcess (data : rssFeedResourceData) (feedData : putioFeedData) :
    rssFeedResourceData :=
  { data with
    ID := { Unknown := false, Null := false, Value := Itoa feedData.Feed.ID }
    Title := { Unknown := false, Null := false, Value := feedData.Feed.Title }
    RssSourceURL := { Unknown := false, Null := false, Value := feedData.Feed.RssSourceURL }
    ParentDirID := { Unknown := false, Null := false, Value := feedData.Feed.ParentDirID }
    DeleteOldFiles := { Unknown := false, Null := false, Value := feedData.Feed.DeleteOldFiles }
    Keyword := { Unknown := false, Null := false, Value := feedData.Feed.Keyword }
    UnwantedKeywords := { Unknown := false, Null := false, Value := feedData.Feed.UnwantedKeywords }
    Paused := { Unknown := false, Null := false, Value := feedData.Feed.Paused } }

/-- Embeds `rssFeedResource.Create`. `config` is the result of decoding
`req.Config` (note: Create reads the configuration, not the plan); `call` is the
oracle for the one remote call. On decode failure Create returns with the decode
diagnostics and no request. On `NewRequest` failure it appends one "Client Error"
diagnostic and returns before any request is issued. On `Do` failure the request
was issued but one "Client Error" diagnostic is appended and no state is written.
On success the post-processed record is written to state. -/
def rssFeedResource.Create (config : Except (List Diagnostic) rssFeedResourceData)
    (call : CallOutcome) : OpResult :=
  match config with
  | .error ds => { requests := [], diagnostics := ds, stateWrite := none }
  | .ok data =>
    match call with
    | .newRequestError e =>
      { requests := []
        diagnostics := [⟨"Client Error", "Unable to create rss feed request, got error: " ++ e⟩]
        stateWrite := none }
    | .doError e =>
      { requests := [⟨"POST", "/v2/rss/create", some (createPayload data)⟩]
        diagnostics := [⟨"Client Error", "Unable to create rss feed, got error: " ++ e⟩]
        stateWrite := none }
    | .success createdFeed =>
      { requests := [⟨"POST", "/v2/rss/create", some (createPayload data)⟩]
        diagnostics := []
        stateWrite := some (createPostProcess data createdFeed) }

/-- Embeds `rssFeedResource.Read`. `state` is the result of decoding `req.State`. -/
def rssFeedResource.Read (state : Except (List Diagnostic) rssFeedResourceData)
    (call : CallOutcome) : OpResult :=
  match state with
  | .error ds => { requests := [], diagnostics := ds, stateWrite := none }
  | .ok data =>
    match call with
    | .newRequestError e =>
      { requests := []
        diagnostics := [⟨"Client Error", "Unable to create rss feed request, got error: " ++ e⟩]
        stateWrite := none }
    | .doError e =>
      { requests := [⟨"GET", "/v2/rss/" ++ data.ID.Value, none⟩]
        diagnostics := [⟨"Client Error", "Unable to read rss feed, got error: " ++ e⟩]
        stateWrite := none }
    | .success feedData =>
      { requests := [⟨"GET", "/v2/rss/" ++ data.ID.Value, none⟩]
        diagnostics := []
        stateWrite := some (readPostProcess data feedData) }

/-- Embeds `rssFeedResource.Update`: decode `req.Plan`, then (the remote call is
commented out in the source) write the decoded plan directly to state. -/
def rssFeedResource.Update (plan : Except (List Diagnostic) rssFeedResourceData) : OpResult :=
  match plan with
  | .error ds => { requests := [], diagnostics := ds, stateWrite := none }
  | .ok data => { requests := [], diagnostics := [], stateWrite := some data }

/-- Embeds `rssFeedResource.Delete`: decode `req.State`, POST to the
identifier-scoped delete endpoint; Delete never writes state itself. -/
def rssFeedResource.Delete (state : Except (List Diagnostic) rssFeedResourceData)
    (call : CallOutcome) : OpResult :=
  match state with
  | .error ds => { requests := [], diagnostics := ds, stateWrite := none }
  | .ok data =>
    match call with
    | .newRequestError e =>
      { requests := []
        diagnostics := [⟨"Client Error", "Unable to create rss feed request deletiob, got error: " ++ e⟩]
        stateWrite := none }
    | .doError e =>
      { requests := [⟨"POST", "/v2/rss/" ++ data.ID.Value ++ "/delete", none⟩]
        diagnostics := [⟨"Client Error", "Unable to delete rss feed, got error: " ++ e⟩]
        stateWrite := none }
    | .success _ =>
      { requests := [⟨"POST", "/v2/rss/" ++ data.ID.Value ++ "/delete", none⟩]
        diagnostics := []
        stateWrite := none }

/-! ### internal/provider: provider object, Configure, convertProviderType -/

/-- The putio client, abstracted to the access token it was constructed with
(`putio.NewClient` over an oauth2 client holding a static token). -/
structure PutioClient where
  token : String
deriving DecidableEq, Repr

/-- Embeds the `provider` struct: client pointer (nil until configured),
`configured` flag, version string. -/
structure provider where
  client : Option PutioClient
  configured : Bool
  version : String
deriving DecidableEq, Repr

/-- The zero `provider` value (`provider{}` in Go). -/
def provider.zero : provider :=
  { client := none, configured := false, version := "" }

/-- Embeds `providerData` (the decoded provider configuration block). -/
structure providerData where
  PutIOOAuthToken : TFString
deriving DecidableEq, Repr

/-- A hexadecimal digit character, lowercase (`0`–`9`, `a`–`f`), as Go's
escape sequences print them. -/
def hexDigit (d : Nat) : Char :=
  if d < 10 then Char.ofNat (48 + d) else Char.ofNat (87 + d)

/-- Embeds the per-character escaping `strconv.Quote` (hence `fmt.Sprintf("%q", ·)`)
applies: `"` and `\` are backslash-escaped, the named control escapes
`\a \b \t \n \v \f \r` are used for their characters, remaining ASCII control
characters (and DEL) take a two-digit `\x` hex escape, and every other
character is kept verbatim. This is exact on ASCII and on printable runes,
which covers every value this development evaluates the function on. -/
def goEscapeChar (c : Char) : List Char :=
  if c = '"' then ['\\', '"']
  else if c = '\\' then ['\\', '\\']
  else if c.toNat = 7 then ['\\', 'a']
  else if c.toNat = 8 then ['\\', 'b']
  else if c.toNat = 9 then ['\\', 't']
  else if c.toNat = 10 then ['\\', 'n']
  else if c.toNat = 11 then ['\\', 'v']
  else if c.toNat = 12 then ['\\', 'f']
  else if c.toNat = 13 then ['\\', 'r']
  else if c.toNat < 32 ∨ c.toNat = 127 then
    ['\\', 'x', hexDigit (c.toNat / 16), hexDigit (c.toNat % 16)]
  else [c]

/-- Embeds Go `strconv.Quote` / `fmt.Sprintf("%q", s)`: the escaped content
wrapped in double-quote characters. -/
def goQuote (s : String) : String :=
  ⟨'"' :: (s.data.flatMap goEscapeChar) ++ ['"']⟩

/-- Embeds the `String()` method of the framework string value in the framework
version this repository pins (the `tfsdk.Provider`-era API): the human-readable
rendering — `"<unknown>"` for an unknown value, `"<null>"` for a null value,
and the `%q`-quoted form of the content for a known value. It is not the raw
`.Value` accessor, which Configure does not call. -/
def TFString.goString (s : TFString) : String :=
  if s.Unknown then "<unknown>"
  else if s.Null then "<null>"
  else goQuote s.Value

/-- Outcome of `client.ValidateToken` for a given token: a transport/validation
error with its message, or success. -/
inductive ValidateOutcome where
  | failure (msg : String)
  | valid
deriving DecidableEq, Repr

/-- Embeds lines 106–110 of Configure: take the token from the declared
configuration value, falling back to the `PUTIO_OAUTH_TOKEN` environment
variable (modelled by `env`; an unset variable is the empty string) exactly when
the configured value is null. -/
def configureToken (data : providerData) (env : String) : String :=
  if data.PutIOOAuthToken.Null then env else data.PutIOOAuthToken.goString

/-- Embeds `provider.Configure`. `config` is the result of `req.Config.Get`;
`env` is the value of `PUTIO_OAUTH_TOKEN`; `validate` is the oracle for
`client.ValidateToken`. Returns the provider after the call together with the
diagnostics appended. The client field and the configured flag are assigned only
on the final success path, mirroring lines 131–132. -/
def provider.Configure (p : provider) (config : Except (List Diagnostic) providerData)
    (env : String) (validate : String → ValidateOutcome) : provider × List Diagnostic :=
  match config with
  | .error ds => (p, ds)
  | .ok data =>
    let token := configureToken data env
    if token = "" then
      (p, [⟨"Unable to find put.io token", "Cannot use token as an empty string"⟩])
    else
      match validate token with
      | .failure e => (p, [⟨"Unable to create put.io client", e⟩])
      | .valid => ({ p with client := some ⟨token⟩, configured := true }, [])

/-- A value of the host framework's provider interface as seen by
`convertProviderType`: either a (possibly nil) pointer to the concrete
`provider` type, or a value of some other implementing type. -/
inductive ProviderInterface where
  | concrete (p : Option provider)
  | other
deriving DecidableEq, Repr

/-- Embeds `convertProviderType`: type-assert to `*provider`; on assertion
failure or a nil pointer return the zero provider plus one error diagnostic
(in the failed-assertion branch `%T` prints the zero `*provider` value's type,
so the message is the constant below); otherwise return the dereferenced
provider with no diagnostics. The embedding is a total function: every input
yields a value, which is the no-panic content of the helper. -/
def convertProviderType : ProviderInterface → provider × List Diagnostic
  | .other =>
    (provider.zero,
     [⟨"Unexpected Provider Instance Type",
       "While creating the data source or resource, an unexpected provider type (*provider.provider) was received. This is always a bug in the provider code and should be reported to the provider developers."⟩])
  | .concrete none =>
    (provider.zero,
     [⟨"Unexpected Provider Instance Type",
       "While creating the data source or resource, an unexpected empty provider instance was received. This is always a bug in the provider code and should be reported to the provider developers."⟩])
  | .concrete (some p) => (p, [])

/-! ### Claim theorems -/

/-- Modelled from the spec: a remote create/read response that echoes every
submitted form field back in the nested feed ("server-side normalization … is
authoritative"; the acceptance test expects the submitted values back, so the
echoing server is the scenario the spec's default-propagation sentence assumes). -/
def echoesPayload (f : putioFeedData) (p : List (String × String)) : Prop :=
  lookupForm p "title" = some f.Feed.Title ∧
  lookupForm p "rss_source_url" = some f.Feed.RssSourceURL ∧
  lookupForm p "parent_dir_id" = some (FormatInt f.Feed.ParentDirID) ∧
  lookupForm p "delete_old_files" = some (fmtBool f.Feed.DeleteOldFiles) ∧
  lookupForm p "keyword" = some f.Feed.Keyword ∧
  lookupForm p "unwanted_keywords" = some f.Feed.UnwantedKeywords ∧
  lookupForm p "paused" = some (fmtBool f.Feed.Paused)

theorem lookupForm_parent_dir_id (d : rssFeedResourceData) :
    lookupForm (createPayload d) "parent_dir_id" = some (FormatInt d.ParentDirID.Value) := rfl

theorem lookupForm_delete_old_files (d : rssFeedResourceData) :
    lookupForm (createPayload d) "delete_old_files" = some (fmtBool d.DeleteOldFiles.Value) := rfl

theorem lookupForm_unwanted_keywords (d : rssFeedResourceData) :
    lookupForm (createPayload d) "unwanted_keywords" = some d.UnwantedKeywords.Value := rfl

theorem lookupForm_paused (d : rssFeedResourceData) :
    lookupForm (createPayload d) "paused" = some (fmtBool d.Paused.Value) := rfl

/-- C1: for every optional attribute with a declared default D (`parent_dir_id=0`,
`delete_old_files=false`, `unwanted_keywords=""`, `paused=false`), the default
plan modifier replaces an explicitly null planned value with D and leaves any
non-null planned value untouched; and when the user omits all these attributes,
the planned value after the schema modifiers equals D and the value persisted by
a successful Create against an echoing server equals D. -/
theorem C1_default_substitution :
    (∀ (m : int64DefaultModifier) (plan : TFInt64),
      (plan.Null = true →
        m.Modify plan = { Unknown := false, Null := false, Value := m.Default }) ∧
      (plan.Null = false → m.Modify plan = plan)) ∧
    (∀ (m : boolDefaultModifier) (plan : TFBool),
      (plan.Null = true →
        m.Modify plan = { Unknown := false, Null := false, Value := m.Default }) ∧
      (plan.Null = false → m.Modify plan = plan)) ∧
    (∀ (m : stringDefaultModifier) (plan : TFString),
      (plan.Null = true →
        m.Modify plan = { Unknown := false, Null := false, Value := m.Default }) ∧
      (plan.Null = false → m.Modify plan = plan)) ∧
    (∀ c : rssFeedConfig,
      c.parent_dir_id = none → c.delete_old_files = none →
      c.unwanted_keywords = none → c.paused = none →
      ((applyDefaults (decodeConfig c)).ParentDirID.Value = 0 ∧
       (applyDefaults (decodeConfig c)).DeleteOldFiles.Value = false ∧
       (applyDefaults (decodeConfig c)).UnwantedKeywords.Value = "" ∧
       (applyDefaults (decodeConfig c)).Paused.Value = false) ∧
      (∀ f : putioFeedData,
        echoesPayload f (createPayload (decodeConfig c)) →
        ∀ st, (rssFeedResource.Create (.ok (decodeConfig c)) (.success f)).stateWrite = some st →
          st.ParentDirID.Value = 0 ∧ st.DeleteOldFiles.Value = false ∧
          st.UnwantedKeywords.Value = "" ∧ st.Paused.Value = false)) := by
  refine ⟨?_, ?_, ?_, ?_⟩
  · intro m plan
    constructor
    · intro h; simp [int64DefaultModifier.Modify, h]
    · intro h; simp [int64DefaultModifier.Modify, h]
  · intro m plan
    constructor
    · intro h; simp [boolDefaultModifier.Modify, h]
    · intro h; simp [boolDefaultModifier.Modify, h]
  · intro m plan
    constructor
    · intro h; simp [stringDefaultModifier.Modify, h]
    · intro h; simp [stringDefaultModifier.Modify, h]
  · intro c h1 h2 h3 h4
    constructor
    · simp [applyDefaults, decodeConfig, h1, h2, h3, h4,
        int64DefaultModifier.Modify, boolDefaultModifier.Modify,
        stringDefaultModifier.Modify, In64Default, BoolDefault, StringDefault]
    · intro f hecho st hst
      obtain ⟨_, _, hp, hd, _, hu, hpa⟩ := hecho
      have hst' : st = createPostProcess (decodeConfig c) f := by
        simpa [rssFeedResource.Create] using hst.symm
      subst hst'
      have hparent : f.Feed.ParentDirID = 0 := by
        rw [lookupForm_parent_dir_id] at hp
        have : FormatInt f.Feed.ParentDirID =
            FormatInt (decodeConfig c).ParentDirID.Value := by
          exact Option.some.inj hp.symm
        have hz : (decodeConfig c).ParentDirID.Value = 0 := by
          simp [decodeConfig, h1]
        rw [hz] at this
        exact FormatInt_injective (this.trans rfl)
      have hdel : f.Feed.DeleteOldFiles = false := by
        rw [lookupForm_delete_old_files] at hd
        have : fmtBool f.Feed.DeleteOldFiles =
            fmtBool (decodeConfig c).DeleteOldFiles.Value :=
          Option.some.inj hd.symm
        have hz : (decodeConfig c).DeleteOldFiles.Value = false := by
          simp [decodeConfig, h2]
        rw [hz] at this
        exact fmtBool_injective this
      have hunw : f.Feed.UnwantedKeywords = "" := by
        rw [lookupForm_unwanted_keywords] at hu
        have : (decodeConfig c).UnwantedKeywords.Value = f.Feed.UnwantedKeywords :=
          Option.some.inj hu
        have hz : (decodeConfig c).UnwantedKeywords.Value = "" := by
          simp [decodeConfig, h3]
        rw [hz] at this
        exact this.symm
      have hpau : f.Feed.Paused = false := by
        rw [lookupForm_paused] at hpa
        have : fmtBool f.Feed.Paused = fmtBool (decodeConfig c).Paused.Value :=
          Option.some.inj hpa.symm
        have hz : (decodeConfig c).Paused.Value = false := by
          simp [decodeConfig, h4]
        rw [hz] at this
        exact fmtBool_injective this
      exact ⟨by simp [createPostProcess, hparent], by simp [createPostProcess, hdel],
        by simp [createPostProcess, hunw], by simp [createPostProcess, hpau]⟩

theorem C1_default_substitution_witness :
    (In64Default 0).Modify { Unknown := false, Null := true, Value := 0 } =
      { Unknown := false, Null := false, Value := 0 } ∧
    (applyDefaults (decodeConfig
      { title := "one", rss_source_url := "https://google.fr", parent_dir_id := none,
        delete_old_files := none, keyword := "foo", unwanted_keywords := none,
        paused := none })).ParentDirID.Value = 0 ∧
    (createPostProcess
      (decodeConfig
        { title := "one", rss_source_url := "https://google.fr", parent_dir_id := none,
          delete_old_files := none, keyword := "foo", unwanted_keywords := none,
          paused := none })
      { Feed := { ID := 7, Title := "one", RssSourceURL := "https://google.fr",
                  ParentDirID := 0, DeleteOldFiles := false, Keyword := "foo",
                  UnwantedKeywords := "", Paused := false },
        Status := "OK" }).ParentDirID.Value = 0 := by
  have h := C1_default_substitution
  have h4 := h.2.2.2
    { title := "one", rss_source_url := "https://google.fr", parent_dir_id := none,
      delete_old_files := none, keyword := "foo", unwanted_keywords := none,
      paused := none } rfl rfl rfl rfl
  refine ⟨(h.1 (In64Default 0) { Unknown := false, Null := true, Value := 0 }).1 rfl,
    h4.1.1, ?_⟩
  exact (h4.2
    { Feed := { ID := 7, Title := "one", RssSourceURL := "https://google.fr",
                ParentDirID := 0, DeleteOldFiles := false, Keyword := "foo",
                UnwantedKeywords := "", Paused := false },
      Status := "OK" }
    ⟨rfl, rfl, rfl, rfl, rfl, rfl, rfl⟩ _ rfl).1

/-- C2: from a (well-formed) decoded configuration — whose payload-relevant
values coincide with the resolved defaults, defaulting having already run —
Create builds a form payload containing exactly the keys `title`,
`rss_source_url`, `parent_dir_id` (decimal string), `delete_old_files`
(lowercase true/false), `dont_process_whole_feed` hard-coded to `"false"`,
`keyword`, `unwanted_keywords` and `paused`. -/
theorem C2_create_payload (d : rssFeedResourceData) (h : d.wellFormed) :
    createPayload d = createPayload (applyDefaults d) ∧
    (createPayload d).map Prod.fst =
      ["title", "rss_source_url", "parent_dir_id", "delete_old_files",
       "dont_process_whole_feed", "keyword", "unwanted_keywords", "paused"] ∧
    createPayload (applyDefaults d) =
      [("title", (applyDefaults d).Title.Value),
       ("rss_source_url", (applyDefaults d).RssSourceURL.Value),
       ("parent_dir_id", FormatInt (applyDefaults d).ParentDirID.Value),
       ("delete_old_files", fmtBool (applyDefaults d).DeleteOldFiles.Value),
       ("dont_process_whole_feed", "false"),
       ("keyword", (applyDefaults d).Keyword.Value),
       ("unwanted_keywords", (applyDefaults d).UnwantedKeywords.Value),
       ("paused", fmtBool (applyDefaults d).Paused.Value)] := by
  obtain ⟨h1, h2, h3, h4⟩ := h
  refine ⟨?_, rfl, rfl⟩
  simp only [createPayload, applyDefaults, int64DefaultModifier.Modify,
    boolDefaultModifier.Modify, stringDefaultModifier.Modify,
    In64Default, BoolDefault, StringDefault]
  cases hpn : d.ParentDirID.Null <;>
    cases hdn : d.DeleteOldFiles.Null <;>
      cases hun : d.UnwantedKeywords.Null <;>
        cases hsn : d.Paused.Null <;>
          simp_all

theorem C2_create_payload_witness :
    createPayload (decodeConfig
      { title := "one", rss_source_url := "https://google.fr", parent_dir_id := none,
        delete_old_files := none, keyword := "foo", unwanted_keywords := none,
        paused := none }) =
    createPayload (applyDefaults (decodeConfig
      { title := "one", rss_source_url := "https://google.fr", parent_dir_id := none,
        delete_old_files := none, keyword := "foo", unwanted_keywords := none,
        paused := none })) :=
  (C2_create_payload _ (by decide)).1

/-- C3: Update performs no remote call — for every successfully decoded planned
record, it issues no HTTP request, appends no diagnostic, and writes the planned
values verbatim as the new tracked state. -/
theorem C3_update_no_remote_call (d : rssFeedResourceData) :
    (rssFeedResource.Update (.ok d)).requests = [] ∧
    (rssFeedResource.Update (.ok d)).diagnostics = [] ∧
    (rssFeedResource.Update (.ok d)).stateWrite = some d :=
  ⟨rfl, rfl, rfl⟩

/-- C4: Create's and Read's post-processing of a wire feed record coincide, and
both overwrite every field of the external record from the response's nested
feed data — the result does not depend on the prior record at all, and each
field is repopulated from the corresponding wire field. -/
theorem C4_postprocess_identical (d e : rssFeedResourceData) (f : putioFeedData) :
    createPostProcess d f = readPostProcess e f ∧
    (createPostProcess d f).ID.Value = Itoa f.Feed.ID ∧
    (createPostProcess d f).Title.Value = f.Feed.Title ∧
    (createPostProcess d f).RssSourceURL.Value = f.Feed.RssSourceURL ∧
    (createPostProcess d f).ParentDirID.Value = f.Feed.ParentDirID ∧
    (createPostProcess d f).DeleteOldFiles.Value = f.Feed.DeleteOldFiles ∧
    (createPostProcess d f).Keyword.Value = f.Feed.Keyword ∧
    (createPostProcess d f).UnwantedKeywords.Value = f.Feed.UnwantedKeywords ∧
    (createPostProcess d f).Paused.Value = f.Feed.Paused :=
  ⟨rfl, rfl, rfl, rfl, rfl, rfl, rfl, rfl, rfl⟩

/-- C5: for each remote-calling lifecycle operation, a request-construction
failure and a remote-call failure are each reported as exactly one diagnostic
carrying the category label "Client Error" plus the underlying error text, and
the operation writes no state. -/
theorem C5_failure_single_diagnostic (d : rssFeedResourceData) (e : String) :
    (rssFeedResource.Create (.ok d) (.newRequestError e)).diagnostics =
      [⟨"Client Error", "Unable to create rss feed request, got error: " ++ e⟩] ∧
    (rssFeedResource.Create (.ok d) (.newRequestError e)).stateWrite = none ∧
    (rssFeedResource.Create (.ok d) (.doError e)).diagnostics =
      [⟨"Client Error", "Unable to create rss feed, got error: " ++ e⟩] ∧
    (rssFeedResource.Create (.ok d) (.doError e)).stateWrite = none ∧
    (rssFeedResource.Read (.ok d) (.newRequestError e)).diagnostics =
      [⟨"Client Error", "Unable to create rss feed request, got error: " ++ e⟩] ∧
    (rssFeedResource.Read (.ok d) (.newRequestError e)).stateWrite = none ∧
    (rssFeedResource.Read (.ok d) (.doError e)).diagnostics =
      [⟨"Client Error", "Unable to read rss feed, got error: " ++ e⟩] ∧
    (rssFeedResource.Read (.ok d) (.doError e)).stateWrite = none ∧
    (rssFeedResource.Delete (.ok d) (.newRequestError e)).diagnostics =
      [⟨"Client Error", "Unable to create rss feed request deletiob, got error: " ++ e⟩] ∧
    (rssFeedResource.Delete (.ok d) (.newRequestError e)).stateWrite = none ∧
    (rssFeedResource.Delete (.ok d) (.doError e)).diagnostics =
      [⟨"Client Error", "Unable to delete rss feed, got error: " ++ e⟩] ∧
    (rssFeedResource.Delete (.ok d) (.doError e)).stateWrite = none :=
  ⟨rfl, rfl, rfl, rfl, rfl, rfl, rfl, rfl, rfl, rfl, rfl, rfl⟩

/-- C7: after a successful Create or Read, the identifier stored in the external
record is the decimal string form of the wire record's integer identifier, and
that conversion is lossless (parsing the decimal string recovers the integer,
for every integer). -/
theorem C7_identifier_decimal_string (d e : rssFeedResourceData) (f : putioFeedData) :
    (rssFeedResource.Create (.ok d) (.success f)).stateWrite =
      some (createPostProcess d f) ∧
    (rssFeedResource.Read (.ok e) (.success f)).stateWrite =
      some (readPostProcess e f) ∧
    (createPostProcess d f).ID =
      { Unknown := false, Null := false, Value := Itoa f.Feed.ID } ∧
    (readPostProcess e f).ID =
      { Unknown := false, Null := false, Value := Itoa f.Feed.ID } ∧
    parseDecInt (Itoa f.Feed.ID) = f.Feed.ID :=
  ⟨rfl, rfl, rfl, rfl, parseDecInt_FormatInt _⟩

/-- C8: the int64 default modifier leaves an unknown (not-yet-computed,
non-null) planned value unchanged: substitution fires only for null values, so
an unknown planned value stays unknown. -/
theorem C8_unknown_stays_unknown (m : int64DefaultModifier) (plan : TFInt64)
    (hu : plan.Unknown = true) (hn : plan.Null = false) :
    m.Modify plan = plan ∧ (m.Modify plan).Unknown = true := by
  have heq : m.Modify plan = plan := by
    simp [int64DefaultModifier.Modify, hn]
  exact ⟨heq, by rw [heq]; exact hu⟩

theorem C8_unknown_stays_unknown_witness :
    (In64Default 0).Modify { Unknown := true, Null := false, Value := 0 } =
      { Unknown := true, Null := false, Value := 0 } ∧
    ((In64Default 0).Modify { Unknown := true, Null := false, Value := 0 }).Unknown = true :=
  C8_unknown_stays_unknown (In64Default 0)
    { Unknown := true, Null := false, Value := 0 } rfl rfl

/-- C10: `convertProviderType` is total (never panics) and for every input:
a value of another implementing type, or a nil pointer of the concrete type,
yields the zero provider together with exactly one error diagnostic; a non-nil
pointer of the concrete type yields the dereferenced provider and no
diagnostics. -/
theorem C10_convertProviderType_total :
    ((convertProviderType .other).1 = provider.zero ∧
      (convertProviderType .other).2.map Diagnostic.summary =
        ["Unexpected Provider Instance Type"]) ∧
    ((convertProviderType (.concrete none)).1 = provider.zero ∧
      (convertProviderType (.concrete none)).2.map Diagnostic.summary =
        ["Unexpected Provider Instance Type"]) ∧
    (∀ p : provider, convertProviderType (.concrete (some p)) = (p, [])) :=
  ⟨⟨rfl, rfl⟩, ⟨rfl, rfl⟩, fun _ => rfl⟩

/-- C6: the claim's first clause fails on the code. Configure takes the token
from `data.PutIOOAuthToken.String()`, which is the `%q`-quoted rendering, not
the declared configuration value: at the failing input (declared `oauth_token`
set to `tok`, environment variable unset) the token handed to the client is the
six-character string `"tok"` — quote characters included — and not `tok`, so
when the value is set the declared value itself is never used as the token.
The null fallback to the environment variable and the empty-token hard error
behave as the claim states. -/
theorem C6_token_quoting_bug :
    configureToken
        { PutIOOAuthToken := { Unknown := false, Null := false, Value := "tok" } } "" =
      "\"tok\"" ∧
    "\"tok\"" ≠ "tok" ∧
    (provider.Configure provider.zero
        (.ok { PutIOOAuthToken := { Unknown := false, Null := false, Value := "tok" } }) ""
        (fun _ => .valid)).1.client = some { token := "\"tok\"" } ∧
    configureToken
        { PutIOOAuthToken := { Unknown := false, Null := true, Value := "" } } "envtok" =
      "envtok" ∧
    provider.Configure provider.zero
        (.ok { PutIOOAuthToken := { Unknown := false, Null := true, Value := "" } }) ""
        (fun _ => .valid) =
      (provider.zero,
       [⟨"Unable to find put.io token", "Cannot use token as an empty string"⟩]) := by
  refine ⟨by decide, by decide, by decide, rfl, by decide⟩

/-- C9: Configure is atomic — on a configuration decode error, an empty token
after fallback, or a token-validation failure, the provider value (its client
field and configured flag included) is returned unchanged; the client and the
configured flag are assigned exactly on the path where the token is non-empty
and validation succeeded. -/
theorem C9_configure_atomic (p : provider) (data : providerData) (env : String)
    (validate : String → ValidateOutcome) :
    (∀ ds, provider.Configure p (.error ds) env validate = (p, ds)) ∧
    (configureToken data env = "" →
      (provider.Configure p (.ok data) env validate).1 = p) ∧
    (∀ e, validate (configureToken data env) = .failure e →
      (provider.Configure p (.ok data) env validate).1 = p) ∧
    (configureToken data env ≠ "" →
      validate (configureToken data env) = .valid →
      (provider.Configure p (.ok data) env validate).1 =
        { p with client := some ⟨configureToken data env⟩, configured := true }) ∧
    ((provider.Configure p (.ok data) env validate).1 ≠ p →
      configureToken data env ≠ "" ∧
      validate (configureToken data env) = .valid) := by
  refine ⟨fun ds => rfl, ?_, ?_, ?_, ?_⟩
  · intro h; simp [provider.Configure, h]
  · intro e he
    by_cases h : configureToken data env = ""
    · simp [provider.Configure, h]
    · simp [provider.Configure, h, he]
  · intro h hv
    simp [provider.Configure, h, hv]
  · intro hne
    by_cases h : configureToken data env = ""
    · exact absurd (by simp [provider.Configure, h]) hne
    · refine ⟨h, ?_⟩
      cases hv : validate (configureToken data env) with
      | failure e => exact absurd (by simp [provider.Configure, h, hv]) hne
      | valid => rfl

theorem C9_configure_atomic_witness :
    (provider.Configure provider.zero
        (.ok { PutIOOAuthToken := { Unknown := false, Null := true, Value := "" } }) "tok"
        (fun _ => .valid)).1 =
      { client := some { token := "tok" }, configured := true, version := "" } ∧
    (provider.Configure provider.zero
        (.ok { PutIOOAuthToken := { Unknown := false, Null := true, Value := "" } }) "tok"
        (fun _ => .failure "boom")).1 = provider.zero :=
  ⟨(C9_configure_atomic provider.zero
      { PutIOOAuthToken := { Unknown := false, Null := true, Value := "" } } "tok"
      (fun _ => .valid)).2.2.2.1 (by decide) rfl,
   (C9_configure_atomic provider.zero
      { PutIOOAuthToken := { Unknown := false, Null := true, Value := "" } } "tok"
      (fun _ => .failure "boom")).2.2.1 "boom" rfl⟩
